import Mathlib

/-!
# Verification of the go-netconf RPC message lifecycle

Shallow embedding of the core of `olitez/go-netconf`:
request-envelope construction (`RPCMessage.MarshalXML` / `Exec`),
reply decoding and error classification (`newRPCReply`), the
message-identifier generator (`uuid`), and the credential boundary
(`PublicKey.Config`).

XML documents are modelled as element trees (the element layer of the
`etree` library): an element has a tag name, its character data
(`etree.Element.Text()` — the text token right after the opening tag,
`""` when absent) and a list of child elements.  `etree` stores only
non-nil element pointers in a child list, which the embedding reflects
by making elements plain values.
-/

namespace GoNetconf

/-- An XML element: tag name, its `Text()` character data, and child
elements, mirroring the `etree.Element` data reachable from the decoder. -/
inductive XElem : Type where
  | mk : String → String → List XElem → XElem

def XElem.name : XElem → String
  | .mk n _ _ => n

def XElem.text : XElem → String
  | .mk _ t _ => t

def XElem.children : XElem → List XElem
  | .mk _ _ cs => cs

mutual

/-- Model of the `etree` path search `FindElement("//name")` relative to a
single element: first match in document order, the element itself included. -/
def findInTree (n : String) : XElem → Option XElem
  | XElem.mk nm t cs =>
    if nm == n then some (XElem.mk nm t cs) else findInForest n cs

/-- The same search over a list of sibling trees, in order. -/
def findInForest (n : String) : List XElem → Option XElem
  | [] => none
  | e :: es =>
    match findInTree n e with
    | some r => some r
    | none => findInForest n es

end

mutual

/-- Model of `etree` `FindElements("//name")` relative to an element: every match
in the subtree in document order, the element itself included. -/
def collectInTree (n : String) : XElem → List XElem
  | XElem.mk nm t cs =>
    (if nm == n then [XElem.mk nm t cs] else []) ++ collectInForest n cs

/-- The same collection over a list of sibling trees. -/
def collectInForest (n : String) : List XElem → List XElem
  | [] => []
  | e :: es => collectInTree n e ++ collectInForest n es

end

/-- Model of the `etree` relative path `FindElement("name")` on an element: first
immediate child with the given tag. -/
def findChildNamed (n : String) (e : XElem) : Option XElem :=
  e.children.find? (fun c => c.name == n)

/-- A parsed document is its list of top-level elements (the children of
the virtual root of `etree.Document`); a well-formed document has one. -/
def XDoc := List XElem

/-- Lookup in the style of `Document.FindElement("rpc-reply")`: the relative path
matches only the immediate (top-level) children of the document. -/
def findTopLevel (n : String) (doc : List XElem) : Option XElem :=
  doc.find? (fun e => e.name == n)

/-- The `RPCError` struct from `part_000`: one decoded `rpc-error` entry. -/
structure RPCError where
  Typ : String
  Tag : String
  Severity : String
  Path : String
  Message : String
deriving DecidableEq, Repr

/-- The `RPCReply` struct from `part_000`.  `Data` holds the document after
`SetRoot`: re-rooting detaches the chosen child from `rpc-reply` and
installs it as the only root of the document, so the document afterwards is
exactly that subtree. -/
structure RPCReply where
  Errors : List RPCError
  Data : XElem
  Ok : Bool
  MessageID : String

/-- Outcome of `newRPCReply` on an already-parsed document.  The Go
function can (a) panic dereferencing the nil result of
`FindElement("rpc-reply")` (`nilDeref`), (b) panic indexing
`ChildElements()[0]` on an empty slice (`indexOOB`), (c) return
`(nil, fmt.Errorf("can not find root"))` (`findRootFailure`), (d) return
`(reply, nil)` (`ok`), or (e) return `(reply, &rpcErr)` (`failed`). -/
inductive DecodeResult : Type where
  | nilDeref : DecodeResult
  | indexOOB : DecodeResult
  | findRootFailure : DecodeResult
  | ok : RPCReply → DecodeResult
  | failed : RPCReply → RPCError → DecodeResult

/-- The `safeText` closure in `newRPCReply`: `""` for a nil element,
otherwise its `Text()`. -/
def safeText : Option XElem → String
  | none => ""
  | some e => e.text

/-- The per-`rpc-error` decoding in the loop of `newRPCReply`: each sub-field
comes from `safeText(rpcErr.FindElement("<field>"))`. -/
def decodeRPCError (el : XElem) : RPCError :=
  { Typ := safeText (findChildNamed "error-type" el)
  , Tag := safeText (findChildNamed "error-tag" el)
  , Severity := safeText (findChildNamed "error-severity" el)
  , Path := safeText (findChildNamed "error-path" el)
  , Message := safeText (findChildNamed "error-message" el) }

/-- Whether one decoded error makes the classification loop return:
`rpcErr.Severity == "error" || ErrOnWarning`. -/
def qualifies (errOnWarning : Bool) (e : RPCError) : Bool :=
  e.Severity == "error" || errOnWarning

/-- The classification loop at the end of `newRPCReply`: walk
`reply.Errors` in order and return the first entry with
`Severity == "error" || ErrOnWarning` (the enclosing
`if reply.Errors != nil` guard only skips an empty loop). -/
def classifyErrors (errOnWarning : Bool) : List RPCError → Option RPCError
  | [] => none
  | e :: es =>
    if qualifies errOnWarning e then some e else classifyErrors errOnWarning es

/-- The Go comparison `root == nil` on `ChildElements()[0]`: an `etree`
child-element slice never holds a nil pointer, so an element value
obtained from it is never nil. -/
def isNilElement (_ : XElem) : Bool := false

/-- Model of `newRPCReply` from `part_000` on an already-parsed document
(`ReadFromBytes` succeeded; ill-formed markup is rejected before this
model starts).  Follows the source line by line: the `//ok` probe, the
`rpc-reply` child lookup with its nil test, `SetRoot`, the `//rpc-error`
scan of the re-rooted document, `MessageID` assignment, and the
classification loop. -/
def newRPCReply (doc : List XElem) (errOnWarning : Bool) (messageID : String) :
    DecodeResult :=
  let okFlag := (findInForest "ok" doc).isSome
  match findTopLevel "rpc-reply" doc with
  | none => DecodeResult.nilDeref
  | some rr =>
    match rr.children.head? with
    | none => DecodeResult.indexOOB
    | some root =>
      if isNilElement root then DecodeResult.findRootFailure
      else
        let errs := (collectInTree "rpc-error" root).map decodeRPCError
        let reply : RPCReply :=
          { Errors := errs, Data := root, Ok := okFlag, MessageID := messageID }
        match classifyErrors errOnWarning errs with
        | some e => DecodeResult.failed reply e
        | none => DecodeResult.ok reply

/-- The Go `encoding/xml` check `isInCharacterRange`: the XML 1.0 character
range, over the code point. -/
def isInCharacterRange (r : Nat) : Bool :=
  decide (r = 0x09) || decide (r = 0x0A) || decide (r = 0x0D) ||
  (decide (0x20 ≤ r) && decide (r ≤ 0xD7FF)) ||
  (decide (0xE000 ≤ r) && decide (r ≤ 0xFFFD)) ||
  (decide (0x10000 ≤ r) && decide (r ≤ 0x10FFFF))

/-- One character of the Go `encoding/xml` `EscapeString` (the escaping
applied to attribute values): the eight special characters become
entity references and a character outside the XML range becomes
U+FFFD; every other character passes through. -/
def escapeGoChar (c : Char) : String :=
  if c = '"' then "&#34;"
  else if c = Char.ofNat 39 then "&#39;"
  else if c = '&' then "&amp;"
  else if c = '<' then "&lt;"
  else if c = '>' then "&gt;"
  else if c = '\t' then "&#x9;"
  else if c = '\n' then "&#xA;"
  else if c = '\r' then "&#xD;"
  else if !(isInCharacterRange c.toNat) then "�"
  else String.singleton c

/-- Go `p.EscapeString` over a whole attribute value. -/
def escapeAttr (s : String) : String :=
  String.join (s.data.map escapeGoChar)

/-- The `RPCMethod` values: the repository instantiates the interface only
with `RawMethod`, a string whose `MarshalMethod` returns itself. -/
inductive RPCMethod : Type where
  | raw : String → RPCMethod

/-- Model of `RawMethod.MarshalMethod`. -/
def RPCMethod.marshalMethod : RPCMethod → String
  | .raw s => s

/-- Model of `MethodLock` from `part_000`. -/
def MethodLock (target : String) : RPCMethod :=
  .raw ("<lock><target><" ++ target ++ "/></target></lock>")

/-- Model of `MethodGetConfig` from `part_000`. -/
def MethodGetConfig (source : String) : RPCMethod :=
  .raw ("<get-config><source><" ++ source ++ "/></source></get-config>")

/-- The `RPCMessage` struct from `part_000`. -/
structure RPCMessage where
  MessageID : String
  Methods : List RPCMethod

/-- Go `xml.Header`. -/
def xmlHeader : String := "<?xml version=\"1.0\" encoding=\"UTF-8\"?>\n"

/-- The fixed namespace attribute value written by `MarshalXML`. -/
def xmlnsNetconf : String := "urn:ietf:params:xml:ns:netconf:base:1.0"

/-- Model of `RPCMessage.MarshalXML` as realised by `encoding/xml.Marshal`: the
encoder writes the `<rpc>` start tag with the two struct attributes in
field order (values escaped by `EscapeString`), then the `,innerxml`
bytes verbatim, then the end tag.  The inner bytes are the
`MarshalMethod` outputs of the methods concatenated in order into `buf`. -/
def marshalRPCMessage (m : RPCMessage) : String :=
  "<rpc message-id=\"" ++ escapeAttr m.MessageID ++ "\" xmlns=\"" ++
    escapeAttr xmlnsNetconf ++ "\">" ++
    String.join (m.Methods.map RPCMethod.marshalMethod) ++ "</rpc>"

/-- The request bytes `RPCMessage.Exec` hands to `Transport.Send`:
`xml.Header` prepended to the marshalled message. -/
def buildRequest (messageID : String) (methods : List RPCMethod) : String :=
  xmlHeader ++ marshalRPCMessage { MessageID := messageID, Methods := methods }

/-- Lowercase hex digit, as Go `fmt` verb `%x` prints. -/
def hexDigit (n : Nat) : Char :=
  if n < 10 then Char.ofNat (48 + n) else Char.ofNat (87 + n)

/-- The two hex digits `%x` prints for one byte of a slice. -/
def byteHex (n : Nat) : String :=
  String.mk [hexDigit (n / 16), hexDigit (n % 16)]

/-- Print of `%x` over a byte slice: each byte as two lowercase hex digits. -/
def bytesHex (l : List Nat) : String :=
  String.join (l.map byteHex)

/-- Model of `uuid` from `part_000`, as a function of the 16 bytes the random
source left in `b` (`io.ReadFull(rand.Reader, b)` — its error is
ignored, so the bytes are whatever ended up there): force the version
nibble with `(b[6] & 0x0f) | 0x40` and the variant bits with
`(b[8] & 0x3f) | 0x80`, then print `%x-%x-%x-%x-%x` over the slices
`b[0:4]`, `b[4:6]`, `b[6:8]`, `b[8:10]`, `b[10:]`. -/
def uuid (b0 b1 b2 b3 b4 b5 b6 b7 b8 b9 b10 b11 b12 b13 b14 b15 : Nat) :
    String :=
  let v6 := Nat.lor (Nat.land b6 0x0f) 0x40
  let v8 := Nat.lor (Nat.land b8 0x3f) 0x80
  bytesHex [b0, b1, b2, b3] ++ "-" ++ bytesHex [b4, b5] ++ "-" ++
    bytesHex [v6, b7] ++ "-" ++ bytesHex [v8, b9] ++ "-" ++
    bytesHex [b10, b11, b12, b13, b14, b15]

/-- The data of `ssh.ClientConfig` as far as the credential layer is
concerned (the claims only ask whether building it can panic). -/
structure SSHClientConfig where
  user : String

/-- How `PublicKey.Config` can end: with a config, or by executing
`panic(err)` (which terminates the process). -/
inductive ConfigOutcome : Type where
  | ok : SSHClientConfig → ConfigOutcome
  | panicked : String → ConfigOutcome

/-- The `PublicKey` struct from `credential.go`: user plus private-key material
location. -/
structure PublicKey where
  User : String
  File : String

/-- Model of `PublicKey.Config` from `credential.go`.  `SSHConfigPubKeyFile` is
not under `src/`; modelled from the spec, it parses the key material
and can fail recoverably (malformed key, wrong passphrase), so it is
passed in as a function returning `Except`.  The method itself calls it
and, on error, executes `panic(err)`. -/
def PublicKey.Config (p : PublicKey)
    (sshConfigPubKeyFile : String → String → Except String SSHClientConfig) :
    ConfigOutcome :=
  match sshConfigPubKeyFile p.User p.File with
  | .error e => ConfigOutcome.panicked e
  | .ok cfg => ConfigOutcome.ok cfg

/-- Characters of the identifiers `uuid` produces (lowercase hex digits
and the hyphen), used to state when attribute escaping is the identity. -/
def isPlainIdChar (c : Char) : Bool :=
  (decide (48 ≤ c.toNat) && decide (c.toNat ≤ 57)) ||
  (decide (97 ≤ c.toNat) && decide (c.toNat ≤ 102)) ||
  decide (c.toNat = 45)

/-- Lowercase hexadecimal digit test. -/
def isHexLowerChar (c : Char) : Bool :=
  (decide (48 ≤ c.toNat) && decide (c.toNat ≤ 57)) ||
  (decide (97 ≤ c.toNat) && decide (c.toNat ≤ 102))

/-- An `rpc-error` element with a severity and a message sub-element. -/
def xErrElem (sev msg : String) : XElem :=
  XElem.mk "rpc-error" ""
    [XElem.mk "error-severity" sev [], XElem.mk "error-message" msg []]

/-- The document `<rpc-reply><ok/></rpc-reply>`. -/
def xOkDoc : List XElem := [XElem.mk "rpc-reply" "" [XElem.mk "ok" "" []]]

/-- The document `<rpc-reply><data><x>1</x></data></rpc-reply>`. -/
def xDataDoc : List XElem :=
  [XElem.mk "rpc-reply" "" [XElem.mk "data" "" [XElem.mk "x" "1" []]]]

/-- A reply whose payload carries two error entries, the qualifying one
first: `<rpc-reply><data><rpc-error>…error…</rpc-error>
<rpc-error>…warning…</rpc-error></data></rpc-reply>`. -/
def xTwoErrDoc : List XElem :=
  [XElem.mk "rpc-reply" ""
    [XElem.mk "data" "" [xErrElem "error" "locked", xErrElem "warning" "later"]]]

/-- A reply carrying a payload child and a *sibling* `rpc-error`:
`<rpc-reply><data/><rpc-error>…error…</rpc-error></rpc-reply>`. -/
def xMixedDoc : List XElem :=
  [XElem.mk "rpc-reply" "" [XElem.mk "data" "" [], xErrElem "error" "locked"]]

/-- Inversion for `newRPCReply` ending in `(reply, nil)`: the reply is
the one constructed in the body and no decoded error qualified. -/
lemma newRPCReply_ok_inv (doc : List XElem) (w : Bool) (id : String)
    (r : RPCReply) (h : newRPCReply doc w id = DecodeResult.ok r) :
    ∃ rr root, findTopLevel "rpc-reply" doc = some rr ∧
      rr.children.head? = some root ∧
      r = { Errors := (collectInTree "rpc-error" root).map decodeRPCError
          , Data := root
          , Ok := (findInForest "ok" doc).isSome
          , MessageID := id } ∧
      classifyErrors w r.Errors = none := by
  unfold newRPCReply at h
  split at h
  · exact absurd h (by simp)
  next rr hrr =>
    split at h
    · exact absurd h (by simp)
    next root hroot =>
      rw [if_neg (by simp [isNilElement])] at h
      dsimp only at h
      split at h
      next e hcl => exact absurd h (by simp)
      next hcl =>
        cases h
        exact ⟨rr, root, hrr, hroot, rfl, hcl⟩

/-- Inversion for `newRPCReply` ending in `(reply, &rpcErr)`: the reply
is the one constructed in the body and the error is the first
qualifying decoded entry. -/
lemma newRPCReply_failed_inv (doc : List XElem) (w : Bool) (id : String)
    (r : RPCReply) (e : RPCError)
    (h : newRPCReply doc w id = DecodeResult.failed r e) :
    ∃ rr root, findTopLevel "rpc-reply" doc = some rr ∧
      rr.children.head? = some root ∧
      r = { Errors := (collectInTree "rpc-error" root).map decodeRPCError
          , Data := root
          , Ok := (findInForest "ok" doc).isSome
          , MessageID := id } ∧
      classifyErrors w r.Errors = some e := by
  unfold newRPCReply at h
  split at h
  · exact absurd h (by simp)
  next rr hrr =>
    split at h
    · exact absurd h (by simp)
    next root hroot =>
      rw [if_neg (by simp [isNilElement])] at h
      dsimp only at h
      split at h
      next e' hcl =>
        cases h
        exact ⟨rr, root, hrr, hroot, rfl, hcl⟩
      next hcl => exact absurd h (by simp)

/-- Claim C1 (code bug): a well-formed reply whose `rpc-reply` wrapper has
no child elements makes `newRPCReply` panic indexing
`ChildElements()[0]` on an empty slice, never reaching the intended
structural "no reply root" error return. -/
theorem c1_childless_wrapper_panics (w : Bool) (id : String) :
    newRPCReply [XElem.mk "rpc-reply" "" []] w id = DecodeResult.indexOOB ∧
    newRPCReply [XElem.mk "rpc-reply" "" []] w id ≠
      DecodeResult.findRootFailure :=
  ⟨rfl, by intro h; rw [show newRPCReply [XElem.mk "rpc-reply" "" []] w id =
    DecodeResult.indexOOB from rfl] at h; exact absurd h (by simp)⟩

/-- Claim C10: the "can not find root" error return in `newRPCReply` is
unreachable — no input produces it; a document without a top-level
`rpc-reply` element hits the nil dereference instead, and a childless
wrapper hits the out-of-range index. -/
theorem c10_root_error_unreachable :
    (∀ (doc : List XElem) (w : Bool) (id : String),
      newRPCReply doc w id ≠ DecodeResult.findRootFailure) ∧
    (∀ (doc : List XElem) (w : Bool) (id : String),
      findTopLevel "rpc-reply" doc = none →
        newRPCReply doc w id = DecodeResult.nilDeref) ∧
    (∀ (doc : List XElem) (w : Bool) (id : String) (rr : XElem),
      findTopLevel "rpc-reply" doc = some rr → rr.children = [] →
        newRPCReply doc w id = DecodeResult.indexOOB) := by
  refine ⟨?_, ?_, ?_⟩
  · intro doc w id h
    unfold newRPCReply at h
    split at h
    · exact absurd h (by simp)
    next rr hrr =>
      split at h
      · exact absurd h (by simp)
      next root hroot =>
        rw [if_neg (by simp [isNilElement])] at h
        dsimp only at h
        split at h <;> exact absurd h (by simp)
  · intro doc w id h
    simp [newRPCReply, h]
  · intro doc w id rr h hc
    simp [newRPCReply, h, hc]

/-- Witness for C10 at concrete inputs: a document with no `rpc-reply`
and a childless wrapper. -/
theorem c10_witness :
    (findTopLevel "rpc-reply" [XElem.mk "hello" "" []] = none ∧
      newRPCReply [XElem.mk "hello" "" []] false "1" =
        DecodeResult.nilDeref) ∧
    (findTopLevel "rpc-reply" [XElem.mk "rpc-reply" "" []] =
        some (XElem.mk "rpc-reply" "" []) ∧
      (XElem.mk "rpc-reply" "" []).children = [] ∧
      newRPCReply [XElem.mk "rpc-reply" "" []] true "2" =
        DecodeResult.indexOOB) :=
  ⟨⟨rfl, c10_root_error_unreachable.2.1 _ false "1" rfl⟩,
    ⟨rfl, rfl, c10_root_error_unreachable.2.2 _ true "2" _ rfl rfl⟩⟩

/-- Claim C5: whenever `newRPCReply` hands back a reply document — success
or classified failure — its `MessageID` field is the identifier of the
originating request that was passed in. -/
theorem c5_reply_carries_request_id (doc : List XElem) (w : Bool)
    (id : String) (r : RPCReply)
    (h : newRPCReply doc w id = DecodeResult.ok r ∨
      ∃ e, newRPCReply doc w id = DecodeResult.failed r e) :
    r.MessageID = id := by
  rcases h with h | ⟨e, h⟩
  · obtain ⟨rr, root, -, -, rfl, -⟩ := newRPCReply_ok_inv doc w id r h
    rfl
  · obtain ⟨rr, root, -, -, rfl, -⟩ := newRPCReply_failed_inv doc w id r e h
    rfl

/-- Witness for C5 on a plain data reply. -/
theorem c5_witness :
    ∃ r : RPCReply,
      (newRPCReply xDataDoc false "42" = DecodeResult.ok r ∨
        ∃ e, newRPCReply xDataDoc false "42" = DecodeResult.failed r e) ∧
      r.MessageID = "42" :=
  ⟨_, Or.inl rfl,
    c5_reply_carries_request_id xDataDoc false "42" _ (Or.inl rfl)⟩

/-- Claim C7: the success flag of a decoded reply is true iff an `ok` element
occurs anywhere in the original document. -/
theorem c7_ok_flag_iff_ok_marker (doc : List XElem) (w : Bool) (id : String)
    (r : RPCReply)
    (h : newRPCReply doc w id = DecodeResult.ok r ∨
      ∃ e, newRPCReply doc w id = DecodeResult.failed r e) :
    (r.Ok = true ↔ findInForest "ok" doc ≠ none) := by
  have hOk : r.Ok = (findInForest "ok" doc).isSome := by
    rcases h with h | ⟨e, h⟩
    · obtain ⟨_, _, -, -, rfl, -⟩ := newRPCReply_ok_inv doc w id r h; rfl
    · obtain ⟨_, _, -, -, rfl, -⟩ := newRPCReply_failed_inv doc w id r e h; rfl
  rw [hOk, Option.isSome_iff_ne_none]

/-- Witness for C7 on an acknowledgement reply. -/
theorem c7_witness :
    ∃ r : RPCReply,
      (newRPCReply xOkDoc false "7" = DecodeResult.ok r ∨
        ∃ e, newRPCReply xOkDoc false "7" = DecodeResult.failed r e) ∧
      (r.Ok = true ↔ findInForest "ok" xOkDoc ≠ none) ∧ r.Ok = true :=
  ⟨_, Or.inl rfl,
    c7_ok_flag_iff_ok_marker xOkDoc false "7" _ (Or.inl rfl), rfl⟩

/-- Claim C3: when classification decides the call fails, `newRPCReply`
returns the fully constructed reply — complete decoded error list
(entries after the first qualifying one included), payload root and
message id — together with the failure value, never a null reply. -/
theorem c3_failure_returns_full_reply (doc : List XElem) (w : Bool)
    (id : String) (r : RPCReply) (e : RPCError)
    (h : newRPCReply doc w id = DecodeResult.failed r e) :
    ∃ rr root, findTopLevel "rpc-reply" doc = some rr ∧
      rr.children.head? = some root ∧
      r.Errors = (collectInTree "rpc-error" root).map decodeRPCError ∧
      r.Data = root ∧ r.MessageID = id ∧
      classifyErrors w r.Errors = some e := by
  obtain ⟨rr, root, h1, h2, rfl, h4⟩ := newRPCReply_failed_inv doc w id r e h
  exact ⟨rr, root, h1, h2, rfl, rfl, rfl, h4⟩

/-- Witness for C3: a failed reply still carrying both decoded errors. -/
theorem c3_witness :
    ∃ r e,
      newRPCReply xTwoErrDoc false "9" = DecodeResult.failed r e ∧
      r.Errors.length = 2 ∧
      (∃ rr root, findTopLevel "rpc-reply" xTwoErrDoc = some rr ∧
        rr.children.head? = some root ∧
        r.Errors = (collectInTree "rpc-error" root).map decodeRPCError ∧
        r.Data = root ∧ r.MessageID = "9" ∧
        classifyErrors false r.Errors = some e) :=
  ⟨_, _, rfl, rfl, c3_failure_returns_full_reply xTwoErrDoc false "9" _ _ rfl⟩

/-- A warning entry used in concrete classification examples. -/
def warnErr1 : RPCError := ⟨"", "", "warning", "", "w1"⟩

/-- The qualifying error entry used in concrete examples. -/
def errErr : RPCError := ⟨"", "", "error", "", "boom"⟩

/-- A second warning entry used in concrete classification examples. -/
def warnErr2 : RPCError := ⟨"", "", "warning", "", "w2"⟩

/-- A reply whose single `rpc-error` carries only a severity:
`<rpc-reply><rpc-error><error-severity>error</error-severity>
</rpc-error></rpc-reply>`. -/
def xPartialErrDoc : List XElem :=
  [XElem.mk "rpc-reply" ""
    [XElem.mk "rpc-error" "" [XElem.mk "error-severity" "error" []]]]

/-- Claim C2: classification scans the decoded errors in document order and
returns the first entry whose severity is exactly `"error"` (or, with
`ErrOnWarning` set, the first entry of any severity), stopping there;
when no entry qualifies — in particular when every severity differs from
the literal `"error"` and the flag is false — the decoder returns the
reply as success. -/
theorem c2_classifier_first_qualifying (errs : List RPCError) (w : Bool) :
    (∀ e, classifyErrors w errs = some e →
      ∃ i, ∃ hi : i < errs.length,
        errs.get ⟨i, hi⟩ = e ∧ qualifies w e = true ∧
        ∀ j (hj : j < errs.length), j < i →
          qualifies w (errs.get ⟨j, hj⟩) = false) ∧
    (classifyErrors w errs = none ↔ ∀ e ∈ errs, qualifies w e = false) ∧
    (∀ doc id r, newRPCReply doc w id = DecodeResult.ok r →
      classifyErrors w r.Errors = none) ∧
    (∀ doc id r e, newRPCReply doc w id = DecodeResult.failed r e →
      classifyErrors w r.Errors = some e) := by
  refine ⟨?_, ?_, ?_, ?_⟩
  · induction errs with
    | nil => intro e h; simp [classifyErrors] at h
    | cons a t ih =>
      intro e h
      by_cases hq : qualifies w a = true
      · rw [classifyErrors, if_pos hq] at h
        cases h
        exact ⟨0, by simp, rfl, hq, fun j hj hj0 => absurd hj0 (by omega)⟩
      · rw [classifyErrors, if_neg hq] at h
        obtain ⟨i, hi, he, hqe, hbefore⟩ := ih e h
        refine ⟨i + 1, by simpa using hi, he, hqe, ?_⟩
        intro j hj hji
        cases j with
        | zero => simpa using hq
        | succ j' => exact hbefore j' (by simpa using hj) (by omega)
  · induction errs with
    | nil => simp [classifyErrors]
    | cons a t ih =>
      by_cases hq : qualifies w a = true
      · simp [classifyErrors, hq]
      · rw [Bool.not_eq_true] at hq
        simp [classifyErrors, hq, ih]
  · intro doc id r h
    obtain ⟨_, _, -, -, -, hcl⟩ := newRPCReply_ok_inv doc w id r h
    exact hcl
  · intro doc id r e h
    obtain ⟨_, _, -, -, -, hcl⟩ := newRPCReply_failed_inv doc w id r e h
    exact hcl

/-- Witness for C2: severities `[warning, error, warning]` with the flag
off classify to the middle entry, index 1, nothing qualifying before. -/
theorem c2_witness :
    classifyErrors false [warnErr1, errErr, warnErr2] = some errErr ∧
    ∃ i, ∃ hi : i < ([warnErr1, errErr, warnErr2] : List RPCError).length,
      ([warnErr1, errErr, warnErr2] : List RPCError).get ⟨i, hi⟩ = errErr ∧
      qualifies false errErr = true ∧
      ∀ j (hj : j < ([warnErr1, errErr, warnErr2] : List RPCError).length),
        j < i →
          qualifies false
            (([warnErr1, errErr, warnErr2] : List RPCError).get ⟨j, hj⟩) =
            false :=
  ⟨rfl,
    (c2_classifier_first_qualifying [warnErr1, errErr, warnErr2] false).1
      errErr rfl⟩

/-- Claim C8 counterexample: `xMixedDoc` holds exactly one `rpc-error`
occurrence, yet the decoder — which scans only after re-rooting onto
the first child — returns success with an empty error list. -/
theorem c8_counterexample :
    (collectInForest "rpc-error" xMixedDoc).length = 1 ∧
    newRPCReply xMixedDoc false "8" =
      DecodeResult.ok
        { Errors := [], Data := XElem.mk "data" "" [], Ok := false
        , MessageID := "8" } :=
  ⟨rfl, rfl⟩

/-- Claim C8 (amended): the decoder produces one `RPCError` per `rpc-error`
occurrence within the re-rooted payload — the subtree of the first child
of the `rpc-reply` wrapper; occurrences elsewhere in the reply are
dropped by re-rooting — and any missing sub-field decodes as the
explicit empty string, so a partially-populated entry never fails. -/
theorem c8_one_error_per_payload_occurrence (doc : List XElem) (w : Bool)
    (id : String) (r : RPCReply)
    (h : newRPCReply doc w id = DecodeResult.ok r ∨
      ∃ e, newRPCReply doc w id = DecodeResult.failed r e) :
    (∃ rr root, findTopLevel "rpc-reply" doc = some rr ∧
      rr.children.head? = some root ∧
      r.Errors = (collectInTree "rpc-error" root).map decodeRPCError ∧
      r.Errors.length = (collectInTree "rpc-error" root).length) ∧
    (∀ el : XElem,
      (findChildNamed "error-type" el = none → (decodeRPCError el).Typ = "") ∧
      (findChildNamed "error-tag" el = none → (decodeRPCError el).Tag = "") ∧
      (findChildNamed "error-severity" el = none →
        (decodeRPCError el).Severity = "") ∧
      (findChildNamed "error-path" el = none →
        (decodeRPCError el).Path = "") ∧
      (findChildNamed "error-message" el = none →
        (decodeRPCError el).Message = "")) := by
  constructor
  · rcases h with h | ⟨e, h⟩
    · obtain ⟨rr, root, h1, h2, rfl, -⟩ := newRPCReply_ok_inv doc w id r h
      exact ⟨rr, root, h1, h2, rfl, by simp⟩
    · obtain ⟨rr, root, h1, h2, rfl, -⟩ :=
        newRPCReply_failed_inv doc w id r e h
      exact ⟨rr, root, h1, h2, rfl, by simp⟩
  · intro el
    refine ⟨?_, ?_, ?_, ?_, ?_⟩ <;> intro hnone <;>
      simp [decodeRPCError, hnone, safeText]

/-- Witness for the amended C8: a single partially-populated error (no
`error-path`, no `error-message`) decodes to one entry with empty
strings in the missing fields. -/
theorem c8_witness :
    ∃ r e,
      newRPCReply xPartialErrDoc false "3" = DecodeResult.failed r e ∧
      (∃ rr root, findTopLevel "rpc-reply" xPartialErrDoc = some rr ∧
        rr.children.head? = some root ∧
        r.Errors = (collectInTree "rpc-error" root).map decodeRPCError ∧
        r.Errors.length = (collectInTree "rpc-error" root).length) ∧
      r.Errors.length = 1 ∧ e.Path = "" ∧ e.Message = "" ∧
      e.Severity = "error" :=
  ⟨_, _, rfl,
    (c8_one_error_per_payload_occurrence xPartialErrDoc false "3" _
      (Or.inr ⟨_, rfl⟩)).1, rfl, rfl, rfl, rfl⟩

/-- Claim C4 (code bug): `PublicKey.Config` reacts to malformed key
material — a failing `SSHConfigPubKeyFile` — by executing `panic(err)`,
terminating the process instead of returning the error. -/
theorem c4_pubkey_config_panics (p : PublicKey)
    (sshConfigPubKeyFile : String → String → Except String SSHClientConfig)
    (e : String)
    (h : sshConfigPubKeyFile p.User p.File = Except.error e) :
    PublicKey.Config p sshConfigPubKeyFile = ConfigOutcome.panicked e := by
  unfold PublicKey.Config
  rw [h]

/-- Witness for C4 at a concrete malformed-key parse failure. -/
theorem c4_witness :
    ((fun _ _ => (Except.error "malformed key" :
        Except String SSHClientConfig)) "bob" "id_rsa" =
      Except.error "malformed key") ∧
    PublicKey.Config ⟨"bob", "id_rsa"⟩
        (fun _ _ => Except.error "malformed key") =
      ConfigOutcome.panicked "malformed key" :=
  ⟨rfl, c4_pubkey_config_panics ⟨"bob", "id_rsa"⟩ _ _ rfl⟩

/-- A character the id-generator can produce is never escaped. -/
lemma escapeGoChar_plain (c : Char) (h : isPlainIdChar c = true) :
    escapeGoChar c = String.singleton c := by
  have hv : ((48 ≤ c.toNat ∧ c.toNat ≤ 57) ∨
      (97 ≤ c.toNat ∧ c.toNat ≤ 102)) ∨ c.toNat = 45 := by
    simpa [isPlainIdChar, Bool.or_eq_true, Bool.and_eq_true,
      decide_eq_true_iff] using h
  have hrange : isInCharacterRange c.toNat = true := by
    simp only [isInCharacterRange, Bool.or_eq_true, Bool.and_eq_true,
      decide_eq_true_iff]
    omega
  unfold escapeGoChar
  rw [if_neg (fun hc => by subst hc; revert hv; decide),
    if_neg (fun hc => by subst hc; revert hv; decide),
    if_neg (fun hc => by subst hc; revert hv; decide),
    if_neg (fun hc => by subst hc; revert hv; decide),
    if_neg (fun hc => by subst hc; revert hv; decide),
    if_neg (fun hc => by subst hc; revert hv; decide),
    if_neg (fun hc => by subst hc; revert hv; decide),
    if_neg (fun hc => by subst hc; revert hv; decide),
    if_neg (by simp [hrange])]

/-- Escaping is the identity on strings of plain identifier characters,
at the character-list level. -/
lemma escapeGoChar_data_plain (l : List Char)
    (h : ∀ c ∈ l, isPlainIdChar c = true) :
    (l.map (fun c => (escapeGoChar c).data)).flatten = l := by
  induction l with
  | nil => rfl
  | cons c t ih =>
    simp only [List.map_cons, List.flatten_cons]
    rw [escapeGoChar_plain c (h c (by simp)),
      ih (fun d hd => h d (by simp [hd]))]
    rfl


/-- Claim C6: for every identifier and every ordered fragment list, the
built request is exactly the standard document header, then a single
`rpc` element carrying the identifier as its `message-id` attribute and
the fixed `urn:ietf:params:xml:ns:netconf:base:1.0` namespace attribute,
whose inner content is the rendered text of the fragments concatenated in the
given order; the builder is a pure function of its two inputs, and on
identifiers made of the plain generator characters the attribute text
is the identifier verbatim. -/
theorem c6_envelope_shape (messageID : String) (methods : List RPCMethod) :
    buildRequest messageID methods =
      xmlHeader ++ ("<rpc message-id=\"" ++ escapeAttr messageID ++
        "\" xmlns=\"" ++ "urn:ietf:params:xml:ns:netconf:base:1.0" ++ "\">" ++
        String.join (methods.map RPCMethod.marshalMethod) ++ "</rpc>") ∧
    ((∀ c ∈ messageID.data, isPlainIdChar c = true) →
      escapeAttr messageID = messageID) := by
  constructor
  · unfold buildRequest marshalRPCMessage
    rw [show escapeAttr xmlnsNetconf =
      "urn:ietf:params:xml:ns:netconf:base:1.0" by decide]
  · intro h
    obtain ⟨l⟩ := messageID
    apply String.ext
    show (String.join (l.map escapeGoChar)).data = l
    rw [String.data_join]
    simpa [Function.comp_def] using escapeGoChar_data_plain l h

/-- Witness for C6 at a concrete identifier and fragment list. -/
theorem c6_witness :
    (∀ c ∈ ("abc-123" : String).data, isPlainIdChar c = true) ∧
    buildRequest "abc-123" [MethodLock "candidate"] =
      xmlHeader ++ ("<rpc message-id=\"" ++ escapeAttr "abc-123" ++
        "\" xmlns=\"" ++ "urn:ietf:params:xml:ns:netconf:base:1.0" ++ "\">" ++
        String.join
          (([MethodLock "candidate"]).map RPCMethod.marshalMethod) ++
        "</rpc>") ∧
    escapeAttr "abc-123" = "abc-123" :=
  ⟨by decide, (c6_envelope_shape "abc-123" [MethodLock "candidate"]).1,
    (c6_envelope_shape "abc-123" [MethodLock "candidate"]).2 (by decide)⟩

/-- Unpacking `String.mk` yields its character list. -/
lemma data_mk (l : List Char) : (String.mk l).data = l := rfl

/-- The length of a string is the length of its character list. -/
lemma length_data (s : String) : s.length = s.data.length := rfl

/-- The characters `%x` prints for a byte list. -/
lemma bytesHex_data (l : List Nat) :
    (bytesHex l).data =
      (l.map (fun n => [hexDigit (n / 16), hexDigit (n % 16)])).flatten := by
  simp [bytesHex, byteHex, Function.comp_def]

/-- A hex digit of a value below 16 is a lowercase hex character. -/
lemma hexDigit_hexLower (n : Nat) (h : n < 16) :
    isHexLowerChar (hexDigit n) = true := by
  interval_cases n <;> decide

/-- All characters printed for bytes are lowercase hex characters. -/
lemma bytesHex_all_hex (l : List Nat) (h : ∀ x ∈ l, x < 256) :
    ∀ c ∈ (bytesHex l).data, isHexLowerChar c = true := by
  induction l with
  | nil => simp [bytesHex_data]
  | cons a t ih =>
    intro c hc
    rw [bytesHex_data] at hc
    simp only [List.map_cons, List.flatten_cons, List.mem_append,
      List.mem_cons, List.not_mem_nil, or_false] at hc
    rcases hc with (rfl | rfl) | hc
    · exact hexDigit_hexLower _ (by have := h a (by simp); omega)
    · exact hexDigit_hexLower _ (by omega)
    · exact ih (fun x hx => h x (by simp [hx])) c (by rw [bytesHex_data]; exact hc)

/-- Setting the version nibble puts the quotient digit at 4. -/
lemma lor64_div (y : Nat) (h : y ≤ 15) : Nat.lor y 64 / 16 = 4 := by
  interval_cases y <;> decide

/-- Setting the variant bits puts the quotient digit at 8 + y / 16. -/
lemma lor128_div (y : Nat) (h : y ≤ 63) :
    Nat.lor y 128 / 16 = 8 + y / 16 := by
  interval_cases y <;> decide

/-- Claim C9: for every state of the random source, the generated
identifier is the 36-character hyphenated version-4 token: five
lowercase hex groups of lengths 8-4-4-4-12 separated by hyphens, with
the version nibble forced to 4 and the variant bits forced to the
`10xx` pattern (first character of the fourth group in 8..b). -/
theorem c9_uuid_token_shape
    (b0 b1 b2 b3 b4 b5 b6 b7 b8 b9 b10 b11 b12 b13 b14 b15 : Nat)
    (h0 : b0 < 256) (h1 : b1 < 256) (h2 : b2 < 256) (h3 : b3 < 256)
    (h4 : b4 < 256) (h5 : b5 < 256) (h6 : b6 < 256) (h7 : b7 < 256)
    (h8 : b8 < 256) (h9 : b9 < 256) (h10 : b10 < 256) (h11 : b11 < 256)
    (h12 : b12 < 256) (h13 : b13 < 256) (h14 : b14 < 256) (h15 : b15 < 256) :
    ∃ g1 g2 g3 g4 g5 : String,
      uuid b0 b1 b2 b3 b4 b5 b6 b7 b8 b9 b10 b11 b12 b13 b14 b15 =
        g1 ++ "-" ++ g2 ++ "-" ++ g3 ++ "-" ++ g4 ++ "-" ++ g5 ∧
      (g1 ++ "-" ++ g2 ++ "-" ++ g3 ++ "-" ++ g4 ++ "-" ++ g5).length = 36 ∧
      g1.length = 8 ∧ g2.length = 4 ∧ g3.length = 4 ∧ g4.length = 4 ∧
      g5.length = 12 ∧
      (∀ c ∈ g1.data, isHexLowerChar c = true) ∧
      (∀ c ∈ g2.data, isHexLowerChar c = true) ∧
      (∀ c ∈ g3.data, isHexLowerChar c = true) ∧
      (∀ c ∈ g4.data, isHexLowerChar c = true) ∧
      (∀ c ∈ g5.data, isHexLowerChar c = true) ∧
      g3.data.head? = some '4' ∧
      (∃ c, g4.data.head? = some c ∧
        (c = '8' ∨ c = '9' ∨ c = 'a' ∨ c = 'b')) := by
  have hy6 : Nat.land b6 15 ≤ 15 := @Nat.and_le_right b6 15
  have hy8 : Nat.land b8 63 ≤ 63 := @Nat.and_le_right b8 63
  have hd6 : Nat.lor (Nat.land b6 15) 64 / 16 = 4 := lor64_div _ hy6
  have hd8 : Nat.lor (Nat.land b8 63) 128 / 16 = 8 + Nat.land b8 63 / 16 :=
    lor128_div _ hy8
  have hv6 : Nat.lor (Nat.land b6 15) 64 < 256 := by omega
  have hv8 : Nat.lor (Nat.land b8 63) 128 < 256 := by omega
  refine ⟨bytesHex [b0, b1, b2, b3], bytesHex [b4, b5],
    bytesHex [Nat.lor (Nat.land b6 15) 64, b7],
    bytesHex [Nat.lor (Nat.land b8 63) 128, b9],
    bytesHex [b10, b11, b12, b13, b14, b15], rfl, ?_, ?_, ?_, ?_, ?_, ?_,
    ?_, ?_, ?_, ?_, ?_, ?_, ?_⟩
  · simp [length_data, bytesHex_data]
  · simp [length_data, bytesHex_data]
  · simp [length_data, bytesHex_data]
  · simp [length_data, bytesHex_data]
  · simp [length_data, bytesHex_data]
  · simp [length_data, bytesHex_data]
  · refine bytesHex_all_hex _ ?_
    intro x hx
    simp only [List.mem_cons, List.not_mem_nil, or_false] at hx
    rcases hx with rfl | rfl | rfl | rfl <;> omega
  · refine bytesHex_all_hex _ ?_
    intro x hx
    simp only [List.mem_cons, List.not_mem_nil, or_false] at hx
    rcases hx with rfl | rfl <;> omega
  · refine bytesHex_all_hex _ ?_
    intro x hx
    simp only [List.mem_cons, List.not_mem_nil, or_false] at hx
    rcases hx with rfl | rfl <;> omega
  · refine bytesHex_all_hex _ ?_
    intro x hx
    simp only [List.mem_cons, List.not_mem_nil, or_false] at hx
    rcases hx with rfl | rfl <;> omega
  · refine bytesHex_all_hex _ ?_
    intro x hx
    simp only [List.mem_cons, List.not_mem_nil, or_false] at hx
    rcases hx with rfl | rfl | rfl | rfl | rfl | rfl <;> omega
  · rw [bytesHex_data]
    simp only [List.map_cons, List.map_nil, List.flatten_cons,
      List.flatten_nil, List.cons_append, List.head?_cons]
    rw [hd6]
    decide
  · rw [bytesHex_data]
    simp only [List.map_cons, List.map_nil, List.flatten_cons,
      List.flatten_nil, List.cons_append, List.head?_cons]
    refine ⟨_, rfl, ?_⟩
    rw [hd8]
    have hk : Nat.land b8 63 / 16 ≤ 3 := by omega
    generalize Nat.land b8 63 / 16 = k at hk
    interval_cases k
    · left; rfl
    · right; left; rfl
    · right; right; left; rfl
    · right; right; right; rfl

/-- Witness for C9 at the all-zero random state. -/
theorem c9_witness :
    (0 < 256) ∧
    ∃ g1 g2 g3 g4 g5 : String,
      uuid 0 0 0 0 0 0 0 0 0 0 0 0 0 0 0 0 =
        g1 ++ "-" ++ g2 ++ "-" ++ g3 ++ "-" ++ g4 ++ "-" ++ g5 ∧
      (g1 ++ "-" ++ g2 ++ "-" ++ g3 ++ "-" ++ g4 ++ "-" ++ g5).length = 36 ∧
      g1.length = 8 ∧ g2.length = 4 ∧ g3.length = 4 ∧ g4.length = 4 ∧
      g5.length = 12 ∧
      (∀ c ∈ g1.data, isHexLowerChar c = true) ∧
      (∀ c ∈ g2.data, isHexLowerChar c = true) ∧
      (∀ c ∈ g3.data, isHexLowerChar c = true) ∧
      (∀ c ∈ g4.data, isHexLowerChar c = true) ∧
      (∀ c ∈ g5.data, isHexLowerChar c = true) ∧
      g3.data.head? = some '4' ∧
      (∃ c, g4.data.head? = some c ∧
        (c = '8' ∨ c = '9' ∨ c = 'a' ∨ c = 'b')) :=
  ⟨by decide,
    c9_uuid_token_shape 0 0 0 0 0 0 0 0 0 0 0 0 0 0 0 0
      (by decide) (by decide) (by decide) (by decide) (by decide) (by decide)
      (by decide) (by decide) (by decide) (by decide) (by decide) (by decide)
      (by decide) (by decide) (by decide) (by decide)⟩

end GoNetconf
